import Mathlib

/-!
Shallow embedding of the blogicum blog application (ByAlexandrow/ISpread):
the post-visibility and authorization policy layer implemented in
src/blogicum/blog/{views.py, functions.py, forms.py, urls.py}.

Machine integers and timestamps are modelled as Nat (seconds); the database
is modelled as explicit lists of rows; request handlers are pure functions
from a database, an optional authenticated principal and the route
parameters to a response together with the possibly-updated database.
-/

namespace Blogicum

/-- Modelled from the spec: models.py is not under src/, so the User entity
follows section 3 of the spec (id, unique username, first_name, last_name,
email). -/
structure User where
  id : Nat
  username : String
  first_name : String
  last_name : String
  email : String
deriving DecidableEq

/-- Modelled from the spec: models.py is not under src/, so the Category
entity follows section 3 of the spec (id, unique slug, title,
is_published). -/
structure Category where
  id : Nat
  slug : String
  title : String
  is_published : Bool
deriving DecidableEq

/-- Modelled from the spec: models.py is not under src/, so the Post entity
follows section 3 of the spec (id, title, text, pub_date timestamp,
is_published, author_id, category_id, nullable location_id). Timestamps are
seconds since an arbitrary epoch. -/
structure Post where
  id : Nat
  title : String
  text : String
  pub_date : Nat
  is_published : Bool
  author : Nat
  category : Nat
  location : Option Nat
deriving DecidableEq

/-- Modelled from the spec: models.py is not under src/, so the Comment
entity follows section 3 of the spec (id, text, author_id, post_id,
created_at). In views.py the post foreign key of a Comment is accessed
under the attribute name comments (form.instance.comments = self.post_obj,
and the reverse accessor post.comments); here that association is the
field post. -/
structure Comment where
  id : Nat
  text : String
  author : Nat
  post : Nat
  created_at : Nat
deriving DecidableEq

/-- The relational store: one list of rows per entity. -/
structure DB where
  users : List User
  categories : List Category
  posts : List Post
  comments : List Comment
deriving DecidableEq

/-- Calendar day of a timestamp (86400 seconds per day). This models the
SQL DATE() truncation produced by the Django date lookup used in
functions.py. -/
def dayOf (t : Nat) : Nat := t / 86400

/-- Whether the category referenced by a post exists and is published:
the category__is_published=True filter kwarg (an inner join, so a dangling
reference is filtered out). -/
def category_is_published (db : DB) (cid : Nat) : Bool :=
  match db.categories.find? (fun c => c.id == cid) with
  | some c => c.is_published
  | none => false

/-- Slug of the category referenced by a post matches a given slug:
the category__slug filter kwarg in CategoryPostsView.get_queryset. -/
def category_slug_matches (db : DB) (cid : Nat) (slug : String) : Bool :=
  match db.categories.find? (fun c => c.id == cid) with
  | some c => c.slug == slug
  | none => false

/-- Count of Comment rows associated with a post: the
annotate(comment_count=Count(...)) aggregation in views.py. -/
def comment_count (db : DB) (pid : Nat) : Nat :=
  (db.comments.filter (fun c => c.post == pid)).length

/-- The row filter of get_post in functions.py:
is_published=True, category__is_published=True, pub_date__date__lt=now().
The date lookup compares calendar days with strict less-than. -/
def get_post_filter (db : DB) (now : Nat) (p : Post) : Bool :=
  p.is_published && category_is_published db p.category
    && decide (dayOf p.pub_date < dayOf now)

/-- get_post from functions.py: the base queryset used by the index and
category listings. -/
def get_post (db : DB) (now : Nat) : List Post :=
  db.posts.filter (get_post_filter db now)

/-- Modelled from the spec: the base visibility predicate as section 4.1
words it, namely is_published AND pub_date <= now() AND
category.is_published, for refinement comparison against get_post_filter. -/
def base_predicate_spec (db : DB) (now : Nat) (p : Post) : Bool :=
  p.is_published && decide (p.pub_date ≤ now) && category_is_published db p.category

/-- order_by applied to annotated rows, descending on pub_date. -/
def orderByPubDateDesc (l : List (Post × Nat)) : List (Post × Nat) :=
  List.insertionSort (fun a b => b.1.pub_date ≤ a.1.pub_date) l

/-- IndexListView.get_queryset: get_post rows annotated with comment_count
and ordered by pub_date descending. -/
def IndexListView_get_queryset (db : DB) (now : Nat) : List (Post × Nat) :=
  orderByPubDateDesc ((get_post db now).map (fun p => (p, comment_count db p.id)))

/-- The posts appearing in the index listing (annotation dropped). -/
def index_posts (db : DB) (now : Nat) : List Post :=
  (IndexListView_get_queryset db now).map Prod.fst

/-- CategoryPostsView.get_queryset: get_post rows further filtered by
category__slug, annotated with comment_count, ordered by pub_date
descending. -/
def CategoryPostsView_get_queryset (db : DB) (now : Nat) (slug : String) :
    List (Post × Nat) :=
  orderByPubDateDesc
    (((get_post db now).filter (fun p => category_slug_matches db p.category slug)).map
      (fun p => (p, comment_count db p.id)))

/-- The posts appearing in the category listing (annotation dropped). -/
def category_posts (db : DB) (now : Nat) (slug : String) : List Post :=
  (CategoryPostsView_get_queryset db now slug).map Prod.fst

theorem mem_orderByPubDateDesc (a : Post × Nat) (l : List (Post × Nat)) :
    a ∈ orderByPubDateDesc l ↔ a ∈ l :=
  (List.perm_insertionSort _ l).mem_iff

theorem mem_index_posts (db : DB) (now : Nat) (p : Post) :
    p ∈ index_posts db now ↔ p ∈ db.posts ∧ get_post_filter db now p = true := by
  unfold index_posts IndexListView_get_queryset orderByPubDateDesc
  rw [((List.perm_insertionSort _ _).map Prod.fst).mem_iff]
  simp [get_post, List.mem_filter]

theorem mem_category_posts (db : DB) (now : Nat) (slug : String) (p : Post) :
    p ∈ category_posts db now slug ↔
      p ∈ db.posts ∧ get_post_filter db now p = true ∧
        category_slug_matches db p.category slug = true := by
  unfold category_posts CategoryPostsView_get_queryset orderByPubDateDesc
  rw [((List.perm_insertionSort _ _).map Prod.fst).mem_iff]
  simp [get_post, List.mem_filter]
  exact fun _ => and_comm

/-- Redirect targets named in urls.py plus the login entry point used by
LoginRequiredMixin. -/
inductive Route where
  | login
  | index
  | post_detail (post_id : Nat)
  | profile (username : String)
deriving DecidableEq

/-- Outcome of a request as the claims observe it: a redirect, a not-found
response, or a successfully fetched post. -/
inductive Response where
  | redirect (r : Route)
  | notFound
  | found (p : Post)
deriving DecidableEq

/-- The comparison obj.author == request.user: the anonymous user never
equals a stored author. -/
def isAuthor (requester : Option User) (author : Nat) : Bool :=
  match requester with
  | some u => author == u.id
  | none => false

/-- The filter applied by the second fetch in PostDetailView.get_object:
is_published=True, pub_date__lte=now(), category__is_published=True. Note
the timestamp comparison here, unlike the date comparison in get_post. -/
def detail_visible (db : DB) (now : Nat) (p : Post) : Bool :=
  p.is_published && decide (p.pub_date ≤ now) && category_is_published db p.category

/-- PostDetailView: LoginRequiredMixin sends anonymous requesters to login;
get_object fetches the post by id (404 when absent), returns it at once to
its author, and otherwise re-fetches it through the detail_visible filter
(404 when the filter rejects it). -/
def PostDetailView_get (db : DB) (now : Nat) (requester : Option User)
    (post_id : Nat) : Response :=
  match requester with
  | none => .redirect .login
  | some u =>
    match db.posts.find? (fun p => p.id == post_id) with
    | none => .notFound
    | some p =>
      if p.author == u.id then .found p
      else if detail_visible db now p then .found p
      else .notFound

/-- Payload of PostForm: every Post column except author is a form field
(Meta.exclude drops author); a stray author value carried in the raw
payload is recorded to state hyperproperties about it, and is never read
by the handlers because the form has no such field. -/
structure PostFormData where
  title : String
  text : String
  pub_date : Nat
  is_published : Bool
  category : Nat
  location : Option Nat
  author : Option Nat
deriving DecidableEq

/-- Form save on an existing instance: every PostForm field is written,
author and id are untouched (author is excluded from the form). -/
def applyPostForm (f : PostFormData) (p : Post) : Post :=
  { p with title := f.title, text := f.text, pub_date := f.pub_date,
           is_published := f.is_published, category := f.category,
           location := f.location }

/-- PostCreateView on a valid POST: LoginRequiredMixin sends anonymous
requesters to login; form_valid forces instance.author to request.user
before saving; success url is the profile page of the requester. newId is
the fresh row id chosen by the store. -/
def PostCreateView_post (db : DB) (requester : Option User)
    (f : PostFormData) (newId : Nat) : Response × DB :=
  match requester with
  | none => (.redirect .login, db)
  | some u =>
    (.redirect (.profile u.username),
     { db with posts := db.posts ++
        [{ id := newId, title := f.title, text := f.text, pub_date := f.pub_date,
           is_published := f.is_published, author := u.id, category := f.category,
           location := f.location }] })

/-- PostEditView on a valid POST. The dispatch override runs before
LoginRequiredMixin in the method resolution order: it fetches the object
(404 when absent) and redirects any non-author, the anonymous user
included, to the post detail page; only when the ownership test passes
does super().dispatch reach the login check, then the form saves and the
success url is the post detail page for the post_id route parameter. -/
def PostEditView_post (db : DB) (requester : Option User) (post_id : Nat)
    (f : PostFormData) : Response × DB :=
  match db.posts.find? (fun p => p.id == post_id) with
  | none => (.notFound, db)
  | some p =>
    if !(isAuthor requester p.author) then (.redirect (.post_detail post_id), db)
    else match requester with
      | none => (.redirect .login, db)
      | some _ =>
        let posts2 :=
          db.posts.map (fun q => if q.id == post_id then applyPostForm f q else q)
        (.redirect (.post_detail post_id), { db with posts := posts2 })

/-- PostDeleteView on a confirming POST. As in PostEditView, the dispatch
override checks ownership before LoginRequiredMixin is reached; on success
the row is deleted and the success url is the index page. -/
def PostDeleteView_post (db : DB) (requester : Option User) (post_id : Nat) :
    Response × DB :=
  match db.posts.find? (fun p => p.id == post_id) with
  | none => (.notFound, db)
  | some p =>
    if !(isAuthor requester p.author) then (.redirect (.post_detail post_id), db)
    else match requester with
      | none => (.redirect .login, db)
      | some _ =>
        (.redirect .index,
         { db with posts := db.posts.filter (fun q => !(q.id == post_id)) })

/-- CreateCommentView on a valid POST: its dispatch fetches the parent post
first (404 when absent), then LoginRequiredMixin sends anonymous
requesters to login; form_valid sets the post association and the author
on the new Comment; success url is the detail page of post_id. newId and
createdAt are supplied by the store. -/
def CreateCommentView_post (db : DB) (requester : Option User) (post_id : Nat)
    (text : String) (newId createdAt : Nat) : Response × DB :=
  match db.posts.find? (fun p => p.id == post_id) with
  | none => (.notFound, db)
  | some _ =>
    match requester with
    | none => (.redirect .login, db)
    | some u =>
      (.redirect (.post_detail post_id),
       { db with comments := db.comments ++
          [{ id := newId, text := text, author := u.id, post := post_id,
             created_at := createdAt }] })

/-- CommentEditView on a valid POST. No LoginRequiredMixin: dispatch
fetches the comment by comment_id (404 when absent) and redirects any
non-author, the anonymous user included, to the post detail page built
from comment_id; on success the text is saved and the success url is again
the post detail page built from comment_id. The post_id route parameter is
never read. -/
def CommentEditView_post (db : DB) (requester : Option User)
    (post_id comment_id : Nat) (text : String) : Response × DB :=
  match db.comments.find? (fun c => c.id == comment_id) with
  | none => (.notFound, db)
  | some c =>
    if !(isAuthor requester c.author) then (.redirect (.post_detail comment_id), db)
    else
      let comments2 :=
        db.comments.map (fun d => if d.id == comment_id then { d with text := text } else d)
      (.redirect (.post_detail comment_id), { db with comments := comments2 })

/-- CommentDeleteView on a confirming POST. No LoginRequiredMixin: dispatch
redirects any non-author to the post detail page built from comment_id; on
success the row is deleted and the success url is again built from
comment_id. The post_id route parameter is never read. -/
def CommentDeleteView_post (db : DB) (requester : Option User)
    (post_id comment_id : Nat) : Response × DB :=
  match db.comments.find? (fun c => c.id == comment_id) with
  | none => (.notFound, db)
  | some c =>
    if !(isAuthor requester c.author) then (.redirect (.post_detail comment_id), db)
    else
      (.redirect (.post_detail comment_id),
       { db with comments := db.comments.filter (fun d => !(d.id == comment_id)) })

/-- Payload of EditProfileForm: username, first_name, last_name, email. -/
structure ProfileFormData where
  username : String
  first_name : String
  last_name : String
  email : String
deriving DecidableEq

/-- ProfileEditView on a valid POST: LoginRequiredMixin sends anonymous
requesters to login; get_object is request.user, the form fields are
saved, and the success url is the profile page of the (updated)
request.user. -/
def ProfileEditView_post (db : DB) (requester : Option User)
    (f : ProfileFormData) : Response × DB :=
  match requester with
  | none => (.redirect .login, db)
  | some u =>
    let users2 :=
      db.users.map (fun v =>
        if v.id == u.id then
          { v with username := f.username, first_name := f.first_name,
                   last_name := f.last_name, email := f.email }
        else v)
    (.redirect (.profile f.username), { db with users := users2 })

/-- ProfileListView: resolves the user by username (404 when absent) and
lists every post of that author, annotated with comment_count and ordered
by pub_date descending. The requester identity is ignored and no
visibility filter is applied. -/
def ProfileListView_get_queryset (db : DB) (requester : Option User)
    (username : String) : Option (List (Post × Nat)) :=
  match db.users.find? (fun v => v.username == username) with
  | none => none
  | some a =>
    some (orderByPubDateDesc
      ((db.posts.filter (fun p => p.author == a.id)).map
        (fun p => (p, comment_count db p.id))))

/-! Concrete fixtures used by witnesses and counterexamples. -/

/-- A published category. -/
def catNews : Category := { id := 0, slug := "news", title := "News", is_published := true }

/-- A user who authors the fixture posts and the fixture comment. -/
def alice : User := { id := 1, username := "alice", first_name := "A",
                      last_name := "L", email := "a@x" }

/-- A second user, author of nothing. -/
def bob : User := { id := 2, username := "bob", first_name := "B",
                    last_name := "R", email := "b@x" }

/-- A published post by alice with pub_date 0 in the published category. -/
def post1 : Post := { id := 1, title := "t1", text := "x1", pub_date := 0,
                      is_published := true, author := 1, category := 0, location := none }

/-- An unpublished, far-future post by alice. -/
def post2 : Post := { id := 2, title := "t2", text := "x2", pub_date := 999999999,
                      is_published := false, author := 1, category := 0, location := none }

/-- A comment by alice on post1. -/
def comment1 : Comment := { id := 1, text := "hi", author := 1, post := 1, created_at := 5 }

/-- The fixture database. -/
def db0 : DB := { users := [alice, bob], categories := [catNews],
                  posts := [post1, post2], comments := [comment1] }

/-- A concrete post form payload carrying no author value. -/
def form1 : PostFormData := { title := "ft", text := "fx", pub_date := 3,
                              is_published := true, category := 0, location := none,
                              author := none }

/-- The same payload as form1 except for a smuggled author value. -/
def form2 : PostFormData := { form1 with author := some 99 }

/-! Claim theorems. -/

/-- Claim C1, counterexample: at now = 0 the fixture post post1 satisfies the
spec's base visibility predicate (is_published, pub_date 0 <= 0, category
published) yet the index listing omits it, because get_post compares
calendar days with strict less-than rather than timestamps with
less-or-equal. -/
theorem C1_counterexample :
    ¬ ((post1 ∈ index_posts db0 0) ↔ base_predicate_spec db0 0 post1 = true) := by
  decide

/-- Claim C1 as amended: a post appears in the index listing iff it is
published, its category is published, and the calendar day of its pub_date
is strictly before the calendar day of the current time; the category
listing additionally requires the category slug to match. -/
theorem C1_amended (db : DB) (now : Nat) (slug : String) (p : Post) :
    (p ∈ index_posts db now ↔
      p ∈ db.posts ∧ p.is_published = true ∧
        category_is_published db p.category = true ∧
        dayOf p.pub_date < dayOf now) ∧
    (p ∈ category_posts db now slug ↔
      p ∈ db.posts ∧ p.is_published = true ∧
        category_is_published db p.category = true ∧
        dayOf p.pub_date < dayOf now ∧
        category_slug_matches db p.category slug = true) := by
  constructor
  · rw [mem_index_posts]
    unfold get_post_filter
    simp [and_assoc]
  · rw [mem_category_posts]
    unfold get_post_filter
    simp [and_assoc]

/-- Claim C2, counterexample: an anonymous requester fetching the detail
route of the unpublished fixture post post2 is redirected to login by
LoginRequiredMixin rather than receiving NotFound. -/
theorem C2_counterexample :
    PostDetailView_get db0 0 none 2 = Response.redirect Route.login ∧
    PostDetailView_get db0 0 none 2 ≠ Response.notFound := by
  decide

/-- Claim C2 as amended: for a post failing the detail visibility filter,
an authenticated requester who is not the author receives NotFound, while
an anonymous requester is redirected to the login entry point (the detail
view requires login). -/
theorem C2_amended (db : DB) (now : Nat) (u : User) (post_id : Nat) (p : Post)
    (hp : db.posts.find? (fun q => q.id == post_id) = some p)
    (hvis : detail_visible db now p = false)
    (hauth : p.author ≠ u.id) :
    PostDetailView_get db now (some u) post_id = Response.notFound ∧
    PostDetailView_get db now none post_id = Response.redirect Route.login := by
  constructor
  · unfold PostDetailView_get
    rw [hp]
    simp [hauth, hvis]
  · rfl

/-- Witness for C2_amended: in the fixture database, bob (not the author)
fetching the unpublished post2 at now = 0 receives NotFound, and an
anonymous requester is redirected to login. -/
theorem C2_witness :
    db0.posts.find? (fun q => q.id == 2) = some post2 ∧
    detail_visible db0 0 post2 = false ∧
    post2.author ≠ bob.id ∧
    (PostDetailView_get db0 0 (some bob) 2 = Response.notFound ∧
     PostDetailView_get db0 0 none 2 = Response.redirect Route.login) :=
  ⟨by decide, by decide, by decide,
   C2_amended db0 0 bob 2 post2 (by decide) (by decide) (by decide)⟩

/-- Claim C3: the author of a post fetching its detail route receives the
post itself, with no restriction from is_published, pub_date or the
category's published state (the author branch of
PostDetailView.get_object returns before any filter is applied). -/
theorem C3_author_bypass (db : DB) (now : Nat) (u : User) (post_id : Nat) (p : Post)
    (hp : db.posts.find? (fun q => q.id == post_id) = some p)
    (ha : p.author = u.id) :
    PostDetailView_get db now (some u) post_id = Response.found p := by
  unfold PostDetailView_get
  rw [hp]
  simp [ha]

/-- Witness for C3_author_bypass: alice fetching her own unpublished,
far-future post2 (whose visibility filter fails at now = 0) receives it. -/
theorem C3_witness :
    db0.posts.find? (fun q => q.id == 2) = some post2 ∧
    post2.author = alice.id ∧
    PostDetailView_get db0 0 (some alice) 2 = Response.found post2 :=
  ⟨by decide, by decide, C3_author_bypass db0 0 alice 2 post2 (by decide) (by decide)⟩

/-- Claim C4: an authenticated user who is not the author of an existing
post and requests its edit or delete route is redirected to that post's
detail view (post_detail at the post_id route parameter, which equals the
post's id) and the database is left unchanged. -/
theorem C4_ownership_guard (db : DB) (a : User) (post_id : Nat) (p : Post)
    (f : PostFormData)
    (hp : db.posts.find? (fun q => q.id == post_id) = some p)
    (hna : p.author ≠ a.id) :
    p.id = post_id ∧
    PostEditView_post db (some a) post_id f =
      (Response.redirect (Route.post_detail post_id), db) ∧
    PostDeleteView_post db (some a) post_id =
      (Response.redirect (Route.post_detail post_id), db) := by
  refine ⟨?_, ?_, ?_⟩
  · have h := List.find?_some hp
    simpa using h
  · unfold PostEditView_post
    rw [hp]
    simp [isAuthor, hna]
  · unfold PostDeleteView_post
    rw [hp]
    simp [isAuthor, hna]

/-- Witness for C4_ownership_guard: bob attempting to edit or delete
alice's post1 is redirected to post1's detail view and the fixture
database is unchanged. -/
theorem C4_witness :
    db0.posts.find? (fun q => q.id == 1) = some post1 ∧
    post1.author ≠ bob.id ∧
    (post1.id = 1 ∧
     PostEditView_post db0 (some bob) 1 form1 =
       (Response.redirect (Route.post_detail 1), db0) ∧
     PostDeleteView_post db0 (some bob) 1 =
       (Response.redirect (Route.post_detail 1), db0)) :=
  ⟨by decide, by decide,
   C4_ownership_guard db0 bob 1 post1 form1 (by decide) (by decide)⟩

/-- Claim C5: a create request by an authenticated principal persists
exactly one new post whose author is that principal, for every form
payload; and two create requests whose payloads differ only in the author
value they carry produce identical outcomes, because PostForm excludes the
author field. -/
theorem C5_author_injection (db : DB) (u : User) (f f1 f2 : PostFormData)
    (newId : Nat)
    (h : f1.title = f2.title ∧ f1.text = f2.text ∧ f1.pub_date = f2.pub_date ∧
         f1.is_published = f2.is_published ∧ f1.category = f2.category ∧
         f1.location = f2.location) :
    (PostCreateView_post db (some u) f newId).2.posts =
      db.posts ++
        [{ id := newId, title := f.title, text := f.text, pub_date := f.pub_date,
           is_published := f.is_published, author := u.id, category := f.category,
           location := f.location }] ∧
    PostCreateView_post db (some u) f1 newId = PostCreateView_post db (some u) f2 newId := by
  obtain ⟨h1, h2, h3, h4, h5, h6⟩ := h
  refine ⟨rfl, ?_⟩
  unfold PostCreateView_post
  rw [h1, h2, h3, h4, h5, h6]

/-- Witness for C5_author_injection: alice creating a post from form1, and
from the payloads form1 and form2 that differ only in the smuggled author
value, persists author alice in each case with identical outcomes. -/
theorem C5_witness :
    (form1.title = form2.title ∧ form1.text = form2.text ∧
     form1.pub_date = form2.pub_date ∧ form1.is_published = form2.is_published ∧
     form1.category = form2.category ∧ form1.location = form2.location) ∧
    ((PostCreateView_post db0 (some alice) form1 9).2.posts =
       db0.posts ++
         [{ id := 9, title := form1.title, text := form1.text,
            pub_date := form1.pub_date, is_published := form1.is_published,
            author := alice.id, category := form1.category,
            location := form1.location }] ∧
     PostCreateView_post db0 (some alice) form1 9 =
       PostCreateView_post db0 (some alice) form2 9) :=
  ⟨by decide, C5_author_injection db0 alice form1 form1 form2 9 (by decide)⟩

theorem mem_map_fst_sorted (db : DB) (l : List Post) (p : Post) :
    p ∈ (orderByPubDateDesc (l.map (fun q => (q, comment_count db q.id)))).map Prod.fst ↔
      p ∈ l := by
  unfold orderByPubDateDesc
  rw [((List.perm_insertionSort _ _).map Prod.fst).mem_iff]
  simp

theorem snd_eq_comment_count (db : DB) (l : List Post) (pr : Post × Nat)
    (h : pr ∈ orderByPubDateDesc (l.map (fun q => (q, comment_count db q.id)))) :
    pr.2 = comment_count db pr.1.id := by
  rw [mem_orderByPubDateDesc] at h
  simp only [List.mem_map] at h
  obtain ⟨q, _, rfl⟩ := h
  rfl

/-- Claim C6: when the profile user exists, the profile listing returns,
to any requester, exactly the posts authored by that user, with no
visibility predicate applied, each annotated with its comment count. -/
theorem C6_profile_listing (db : DB) (requester : Option User) (username : String)
    (a : User)
    (h : db.users.find? (fun v => v.username == username) = some a) :
    ∃ l, ProfileListView_get_queryset db requester username = some l ∧
      (∀ p : Post, p ∈ l.map Prod.fst ↔ p ∈ db.posts ∧ p.author = a.id) ∧
      (∀ pr ∈ l, pr.2 = comment_count db pr.1.id) ∧
      (∀ r2 : Option User, ProfileListView_get_queryset db r2 username =
          ProfileListView_get_queryset db requester username) := by
  refine ⟨orderByPubDateDesc
      ((db.posts.filter (fun p => p.author == a.id)).map
        (fun p => (p, comment_count db p.id))), ?_, ?_, ?_, fun r2 => rfl⟩
  · unfold ProfileListView_get_queryset
    rw [h]
  · intro p
    rw [mem_map_fst_sorted]
    simp [List.mem_filter]
  · intro pr hpr
    exact snd_eq_comment_count db _ pr hpr

/-- Witness for C6_profile_listing: the profile listing of alice, served
to an anonymous requester, contains the unpublished far-future post2. -/
theorem C6_witness :
    db0.users.find? (fun v => v.username == "alice") = some alice ∧
    (∃ l, ProfileListView_get_queryset db0 none "alice" = some l ∧
      (∀ p : Post, p ∈ l.map Prod.fst ↔ p ∈ db0.posts ∧ p.author = alice.id) ∧
      (∀ pr ∈ l, pr.2 = comment_count db0 pr.1.id) ∧
      (∀ r2 : Option User, ProfileListView_get_queryset db0 r2 "alice" =
          ProfileListView_get_queryset db0 none "alice")) :=
  ⟨by decide, C6_profile_listing db0 none "alice" alice (by decide)⟩

/-- Claim C7: an authenticated user posting valid comment text on an
existing post appends exactly one Comment row whose author is that user
and whose post association is the target post, and is redirected to that
post's detail view. Modelled from the spec for the Comment entity:
models.py is not under src/, and views.py writes the post association
through the attribute named comments. -/
theorem C7_comment_creation (db : DB) (u : User) (post_id : Nat) (p : Post)
    (text : String) (newId createdAt : Nat)
    (hp : db.posts.find? (fun q => q.id == post_id) = some p) :
    CreateCommentView_post db (some u) post_id text newId createdAt =
      (Response.redirect (Route.post_detail post_id),
       { db with comments := db.comments ++
          [{ id := newId, text := text, author := u.id, post := post_id,
             created_at := createdAt }] }) := by
  unfold CreateCommentView_post
  rw [hp]

/-- Witness for C7_comment_creation: bob commenting on post1 appends one
comment row authored by bob on post 1 and is redirected to post1's
detail view. -/
theorem C7_witness :
    db0.posts.find? (fun q => q.id == 1) = some post1 ∧
    CreateCommentView_post db0 (some bob) 1 "nice" 7 11 =
      (Response.redirect (Route.post_detail 1),
       { db0 with comments := db0.comments ++
          [{ id := 7, text := "nice", author := bob.id, post := 1,
             created_at := 11 }] }) :=
  ⟨by decide, C7_comment_creation db0 bob 1 post1 "nice" 7 11 (by decide)⟩

/-- Claim C8: every comment edit or delete request that is not NotFound,
whether it takes the success branch or the ownership-failure branch,
redirects to the post-detail URL constructed from the comment_id route
parameter in place of the post id. -/
theorem C8_comment_redirect_target (db : DB) (requester : Option User)
    (post_id comment_id : Nat) (text : String) :
    ((CommentEditView_post db requester post_id comment_id text).1 = Response.notFound ∨
     (CommentEditView_post db requester post_id comment_id text).1 =
       Response.redirect (Route.post_detail comment_id)) ∧
    ((CommentDeleteView_post db requester post_id comment_id).1 = Response.notFound ∨
     (CommentDeleteView_post db requester post_id comment_id).1 =
       Response.redirect (Route.post_detail comment_id)) := by
  constructor
  · unfold CommentEditView_post
    cases h : db.comments.find? (fun c => c.id == comment_id) with
    | none => simp
    | some c => by_cases ha : isAuthor requester c.author <;> simp [ha]
  · unfold CommentDeleteView_post
    cases h : db.comments.find? (fun c => c.id == comment_id) with
    | none => simp
    | some c => by_cases ha : isAuthor requester c.author <;> simp [ha]

/-- Claim C9, counterexample: anonymous requests to the comment-edit route
for the fixture comment and to the post-edit route for the fixture post
are not redirected to the login entry point; they are soft-redirected to
the post-detail URL (CommentEditView and CommentDeleteView carry no
LoginRequiredMixin, and the dispatch overrides of PostEditView and
PostDeleteView run their ownership check before the login check). -/
theorem C9_counterexample :
    (CommentEditView_post db0 none 5 1 "zz").1 =
        Response.redirect (Route.post_detail 1) ∧
    (CommentEditView_post db0 none 5 1 "zz").1 ≠ Response.redirect Route.login ∧
    (PostEditView_post db0 none 1 form1).1 =
        Response.redirect (Route.post_detail 1) ∧
    (PostEditView_post db0 none 1 form1).1 ≠ Response.redirect Route.login := by
  decide

/-- Claim C9 as amended: an unauthenticated request to any mutating route
creates, modifies and deletes nothing; post create, comment add and
profile edit redirect it to the login entry point, while post edit and
delete soft-redirect it to the post-detail URL built from post_id, and
comment edit and delete soft-redirect it to the post-detail URL built
from comment_id (NotFound when the addressed row does not exist). -/
theorem C9_amended (db : DB) (post_id comment_id newId createdAt : Nat)
    (text : String) (f : PostFormData) (pf : ProfileFormData) :
    PostCreateView_post db none f newId = (Response.redirect Route.login, db) ∧
    ProfileEditView_post db none pf = (Response.redirect Route.login, db) ∧
    ((CreateCommentView_post db none post_id text newId createdAt).2 = db ∧
      ((CreateCommentView_post db none post_id text newId createdAt).1 =
          Response.redirect Route.login ∨
       (CreateCommentView_post db none post_id text newId createdAt).1 =
          Response.notFound)) ∧
    ((PostEditView_post db none post_id f).2 = db ∧
      ((PostEditView_post db none post_id f).1 =
          Response.redirect (Route.post_detail post_id) ∨
       (PostEditView_post db none post_id f).1 = Response.notFound)) ∧
    ((PostDeleteView_post db none post_id).2 = db ∧
      ((PostDeleteView_post db none post_id).1 =
          Response.redirect (Route.post_detail post_id) ∨
       (PostDeleteView_post db none post_id).1 = Response.notFound)) ∧
    ((CommentEditView_post db none post_id comment_id text).2 = db ∧
      ((CommentEditView_post db none post_id comment_id text).1 =
          Response.redirect (Route.post_detail comment_id) ∨
       (CommentEditView_post db none post_id comment_id text).1 =
          Response.notFound)) ∧
    ((CommentDeleteView_post db none post_id comment_id).2 = db ∧
      ((CommentDeleteView_post db none post_id comment_id).1 =
          Response.redirect (Route.post_detail comment_id) ∨
       (CommentDeleteView_post db none post_id comment_id).1 =
          Response.notFound)) := by
  refine ⟨rfl, rfl, ?_, ?_, ?_, ?_, ?_⟩
  · unfold CreateCommentView_post
    cases db.posts.find? (fun p => p.id == post_id) <;> simp
  · unfold PostEditView_post
    cases db.posts.find? (fun p => p.id == post_id) <;> simp [isAuthor]
  · unfold PostDeleteView_post
    cases db.posts.find? (fun p => p.id == post_id) <;> simp [isAuthor]
  · unfold CommentEditView_post
    cases db.comments.find? (fun c => c.id == comment_id) <;> simp [isAuthor]
  · unfold CommentDeleteView_post
    cases db.comments.find? (fun c => c.id == comment_id) <;> simp [isAuthor]

/-- Claim C10: the outcome of a comment edit or delete request, response
and database alike, does not depend on the post_id route parameter: two
requests identical except for post_id produce identical results (the
views resolve the comment through pk_url_kwarg comment_id and never read
post_id). -/
theorem C10_post_id_independent (db : DB) (requester : Option User)
    (pid1 pid2 comment_id : Nat) (text : String) :
    CommentEditView_post db requester pid1 comment_id text =
      CommentEditView_post db requester pid2 comment_id text ∧
    CommentDeleteView_post db requester pid1 comment_id =
      CommentDeleteView_post db requester pid2 comment_id :=
  ⟨rfl, rfl⟩

end Blogicum
